import Mathlib

/-!
Shallow embedding of the contact-form server (`server.js`) of the
Alon-Pardo-Lawyer-Website repository, together with proofs of the
specification's claims about the `/api/contact` endpoint: HTML escaping,
presence/length/phone validation, transport availability, send outcomes,
localization, and rate limiting.
-/

set_option autoImplicit false

namespace AlonPardo

/-! ## The HTML-escape helper (`server.js` lines 12-18)

`esc` applies four global single-character replacements in order:
`&` → `&amp;`, then `<` → `&lt;`, then `>` → `&gt;`, then `"` → `&quot;`.
A JavaScript `String.prototype.replace` with a single-character global
regex replaces each occurrence of that character by the replacement
string, which on the character list is exactly a `List.bind`.
-/

/-- Replace every occurrence of the character `c` in `s` by the string `rep`
(the meaning of `s.replace(/c/g, rep)` for a one-character pattern). -/
def replChar (c : Char) (rep : String) (s : String) : String :=
  ⟨s.data.flatMap (fun x => if x = c then rep.data else [x])⟩

/-- `esc` from `server.js`: sequential replacement of `&`, `<`, `>`, `"`
by their HTML entities, in that order (`&` first). -/
def esc (s : String) : String :=
  replChar '"' "&quot;" (replChar '>' "&gt;" (replChar '<' "&lt;" (replChar '&' "&amp;" s)))

/-- Single-pass per-character escaping: the intended meaning of `esc`.
Each of the four special characters maps to its entity, every other
character to itself. -/
def escChar (c : Char) : List Char :=
  if c = '&' then "&amp;".data
  else if c = '<' then "&lt;".data
  else if c = '>' then "&gt;".data
  else if c = '"' then "&quot;".data
  else [c]

/-! ## Data model: requests, responses, outcomes -/

/-- A JSON response of the contact endpoint: HTTP status plus the fields of
the JSON body (`ok`, optional `error`, optional `fields`). -/
structure Resp where
  status : Nat
  ok : Bool
  error : Option String
  fields : Option (List String)
deriving DecidableEq, Repr

/-- The rendered email (subject and html body) handed to the mail transport. -/
structure Email where
  subject : String
  html : String
deriving DecidableEq, Repr

/-- The observable result of running the handler body: either an immediate
JSON response (no send attempted), or a send attempt with a rendered email. -/
inductive Outcome where
  | respond (r : Resp)
  | sendMail (e : Email)
deriving DecidableEq, Repr

/-- The body of a `POST /api/contact` request (`req.body`); each field is
absent (`none`) or a string.  Absent and `null` both map to `none`, matching
the `v == null` check in the handler. -/
structure ContactRequest where
  name : Option String
  phone : Option String
  caseType : Option String
  email : Option String
  message : Option String
  lang : Option String
deriving DecidableEq, Repr

/-! ## Validation (`server.js` lines 66-92) -/

/-- JavaScript whitespace (the `\s` class), restricted to its ASCII part:
space, tab, newline, carriage return, vertical tab, form feed. -/
def jsWhitespace (c : Char) : Bool :=
  c == ' ' || c == '\t' || c == '\n' || c == '\r' || c == '\x0b' || c == '\x0c'

/-- JavaScript `String.prototype.trim`: strip leading and trailing
whitespace. -/
def jsTrim (s : String) : String :=
  ⟨((s.data.dropWhile jsWhitespace).reverse.dropWhile jsWhitespace).reverse⟩

/-- `v == null || String(v).trim() === ''` from line 70. -/
def isMissing : Option String → Bool
  | none => true
  | some s => jsTrim s == ""

/-- The `required` object of line 68, in its insertion order. -/
def reqFields (r : ContactRequest) : List (String × Option String) :=
  [("name", r.name), ("phone", r.phone), ("caseType", r.caseType)]

/-- The `missing` list of lines 69-71: names of required fields whose value
is absent or blank, in order. -/
def missingFields (r : ContactRequest) : List String :=
  ((reqFields r).filter (fun p => isMissing p.2)).map (fun p => p.1)

/-- The `limits` object of line 77, in its insertion order. -/
def limits : List (String × Nat) :=
  [("name", 200), ("phone", 30), ("caseType", 100), ("email", 254), ("message", 5000)]

/-- `req.body[field]` for the five limited fields. -/
def fieldVal (r : ContactRequest) : String → Option String
  | "name" => r.name
  | "phone" => r.phone
  | "caseType" => r.caseType
  | "email" => r.email
  | "message" => r.message
  | _ => none

/-- `req.body[field] && String(req.body[field]).length > max` from line 79
(an empty string is falsy, so it never counts as over the limit). -/
def overLimit (v : Option String) (mx : Nat) : Bool :=
  match v with
  | none => false
  | some s => (!(s == "")) && decide (mx < s.length)

/-- The first field of the `for` loop of lines 78-82 that fails its length
check, with its limit, if any. -/
def firstOverLimit (r : ContactRequest) : Option (String × Nat) :=
  limits.find? (fun p => overLimit (fieldVal r p.1) p.2)

/-- Membership in the character class `[\d\s\-+().]` of the phone regex on
line 85: digits, whitespace, hyphen, plus, parentheses, period. -/
def phoneCharOk (c : Char) : Bool :=
  c.isDigit || c == ' ' || c == '\t' || c == '\n' || c == '\r' ||
    c == '\x0b' || c == '\x0c' || c == '-' || c == '+' || c == '(' || c == ')' || c == '.'

/-- `/^[\d\s\-+().]+$/.test(phone)` from line 85: at least one character and
every character in the allowed class. -/
def phoneTest (s : String) : Bool :=
  !s.data.isEmpty && s.data.all phoneCharOk

/-! ## Sanitized values and the rendered email (`server.js` lines 94-115) -/

/-- `email ? esc(email.trim()) : ''` from line 97 (absent, null and the
empty string are all falsy). -/
def safeEmailOf : Option String → String
  | none => ""
  | some e => if e == "" then "" else esc (jsTrim e)

/-- `esc((message ?? '').trim()).replace(/\n/g, '<br>')` from line 98:
escape first, then turn newlines into `<br>`. -/
def mkSafeMessage (m : String) : String :=
  replChar '\n' "<br>" (esc (jsTrim m))

/-- The literal segments of the html template of lines 105-115, split at
the five interpolation slots; `isHe` selects the Hebrew or English variant
of each label and of the `dir` attribute.  `tplHead` is everything up to
the `safeName` slot. -/
def tplHead (isHe : Bool) : String :=
  "\n        <div dir=\"" ++ (if isHe then "rtl" else "ltr") ++
    "\" style=\"font-family:sans-serif;max-width:600px;margin:0 auto\">\n            <h2 style=\"color:#835e21\">" ++
    (if isHe then "\u05e4\u05e0\u05d9\u05d9\u05d4 \u05d7\u05d3\u05e9\u05d4 \u05de\u05d0\u05ea\u05e8 \u05d0\u05dc\u05d5\u05df \u05e4\u05e8\u05d3\u05d5" else "New contact from Alon Pardo website") ++
    "</h2>\n            <table style=\"width:100%;border-collapse:collapse\">\n                <tr><td style=\"padding:8px;font-weight:bold;border-bottom:1px solid #eee;width:30%\">" ++
    (if isHe then "\u05e9\u05dd" else "Name") ++
    "</td><td style=\"padding:8px;border-bottom:1px solid #eee\">"

/-- Template segment between the `safeName` and `safePhone` slots. -/
def tplPhone (isHe : Bool) : String :=
  "</td></tr>\n                <tr><td style=\"padding:8px;font-weight:bold;border-bottom:1px solid #eee\">" ++
    (if isHe then "\u05d8\u05dc\u05e4\u05d5\u05df" else "Phone") ++
    "</td><td style=\"padding:8px;border-bottom:1px solid #eee\">"

/-- Template segment between the `safePhone` and `safeCaseType` slots. -/
def tplCase (isHe : Bool) : String :=
  "</td></tr>\n                <tr><td style=\"padding:8px;font-weight:bold;border-bottom:1px solid #eee\">" ++
    (if isHe then "\u05e1\u05d5\u05d2 \u05d4\u05ea\u05d9\u05e7" else "Case Type") ++
    "</td><td style=\"padding:8px;border-bottom:1px solid #eee\">"

/-- Template segment between the `safeCaseType` slot and the conditional
email row. -/
def tplAfterCase : String :=
  "</td></tr>\n                "

/-- Head of the conditional email row, up to the `safeEmail` slot. -/
def tplEmailRowHead (isHe : Bool) : String :=
  "<tr><td style=\"padding:8px;font-weight:bold;border-bottom:1px solid #eee\">" ++
    (if isHe then "\u05d0\u05d9\u05de\u05d9\u05d9\u05dc" else "Email") ++
    "</td><td style=\"padding:8px;border-bottom:1px solid #eee\">"

/-- Tail of the conditional email row, after the `safeEmail` slot. -/
def tplEmailRowTail : String :=
  "</td></tr>"

/-- Template segment between the email row and the `safeMessage` slot. -/
def tplMsg (isHe : Bool) : String :=
  "\n                <tr><td style=\"padding:8px;font-weight:bold;border-bottom:1px solid #eee;vertical-align:top\">" ++
    (if isHe then "\u05e4\u05e8\u05d8\u05d9\u05dd" else "Message") ++
    "</td><td style=\"padding:8px;border-bottom:1px solid #eee\">"

/-- Template segment after the `safeMessage` slot. -/
def tplTail : String :=
  "</td></tr>\n            </table>\n        </div>"

/-- The subject and html of lines 100-115: the template segments above
interleaved with the sanitized values, and the email row present exactly
when `safeEmail` is truthy (non-empty). -/
def buildEmail (isHe : Bool) (safeName safePhone safeCaseType safeEmail safeMessage : String) :
    Email :=
  { subject :=
      if isHe then "\u05e4\u05e0\u05d9\u05d9\u05d4 \u05d7\u05d3\u05e9\u05d4: " ++ safeName ++ " \u2013 " ++ safeCaseType
      else "New Contact: " ++ safeName ++ " \u2013 " ++ safeCaseType,
    html :=
      tplHead isHe ++ safeName ++ tplPhone isHe ++ safePhone ++ tplCase isHe ++ safeCaseType ++
        tplAfterCase ++
        (if safeEmail != "" then tplEmailRowHead isHe ++ safeEmail ++ tplEmailRowTail else "") ++
        tplMsg isHe ++ safeMessage ++ tplTail }

/-! ## The handler body (`server.js` lines 65-128) -/

/-- The `/api/contact` handler body after the rate limiter: presence check,
length check, phone format check, transport availability check, then the
send attempt with the rendered email.  `configured` is the truthiness of
`process.env.SMTP_PASS` (lines 44-52): when false, `transporter` is null. -/
def handleContact (configured : Bool) (r : ContactRequest) : Outcome :=
  let missing := missingFields r
  if missing ≠ [] then
    Outcome.respond
      { status := 400, ok := false,
        error := some "Missing required fields", fields := some missing }
  else
    match firstOverLimit r with
    | some fm =>
        Outcome.respond
          { status := 400, ok := false,
            error := some (fm.1 ++ " exceeds maximum length of " ++ toString fm.2),
            fields := none }
    | none =>
        if !phoneTest (r.phone.getD "") then
          Outcome.respond
            { status := 400, ok := false,
              error := some "Invalid phone format", fields := none }
        else if !configured then
          Outcome.respond
            { status := 503, ok := false,
              error := some "Email not configured", fields := none }
        else
          Outcome.sendMail (buildEmail (r.lang == some "he")
            (esc (jsTrim (r.name.getD ""))) (esc (jsTrim (r.phone.getD "")))
            (esc (jsTrim (r.caseType.getD ""))) (safeEmailOf r.email)
            (mkSafeMessage (r.message.getD "")))

/-- The response produced by the `try`/`catch` around `transporter.sendMail`
(lines 117-128): on success `res.json({ok:true})` (status 200), on failure
status 500 with the fixed generic message; the transport error string is
only logged, never placed in the response. -/
def respOfSend : Except String Unit → Resp
  | Except.ok _ => { status := 200, ok := true, error := none, fields := none }
  | Except.error _ =>
      { status := 500, ok := false, error := some "Failed to send email", fields := none }

/-- The html body of an outcome's email (empty when no send was attempted). -/
def outcomeHtml : Outcome → String
  | Outcome.respond _ => ""
  | Outcome.sendMail e => e.html

/-- Whether an outcome attempts a send. -/
def isSend : Outcome → Bool
  | Outcome.respond _ => false
  | Outcome.sendMail _ => true

/-! ## Rate limiter

Modelled from the spec: the limiter itself is the `express-rate-limit`
middleware (configured on lines 55-61, attached on line 65), whose code is
not part of this repository.  Per the spec it throttles per client address
to at most `max = 5` accepted attempts per `windowMs = 15 * 60 * 1000`
milliseconds sliding window, and requests beyond the limit receive the
configured 429 body without reaching the handler's validation logic.
-/

def windowMs : Nat := 15 * 60 * 1000

def maxHits : Nat := 5

/-- The configured over-limit response: status 429 with the `message` body
of line 60. -/
def rate429 : Resp :=
  { status := 429, ok := false,
    error := some "Too many requests, please try again later", fields := none }

/-- Limiter state: the accepted attempts, as (client address, time) pairs. -/
structure LimiterState where
  hits : List (String × Nat)
deriving DecidableEq, Repr

/-- Number of accepted attempts by `client` within the sliding window ending
at `now`. -/
def recentCount (st : LimiterState) (client : String) (now : Nat) : Nat :=
  (st.hits.filter (fun h => h.1 == client && decide (h.2 ≤ now) && decide (now < h.2 + windowMs))).length

/-- Modelled from the spec: the rate-limited endpoint.  A request from
`client` at time `now` is rejected with the 429 body when the client already
has `maxHits` accepted attempts in the current window — before any
validation logic runs — and otherwise is recorded and handed to the
handler body. -/
def limitedHandle (configured : Bool) (st : LimiterState) (client : String) (now : Nat)
    (r : ContactRequest) : LimiterState × Outcome :=
  if maxHits ≤ recentCount st client now then
    (st, Outcome.respond rate429)
  else
    ({ hits := (client, now) :: st.hits }, handleContact configured r)

/-- Run a sequence of (client, time, request) triples through the limited
endpoint, collecting the outcomes. -/
def processTrace (configured : Bool) : LimiterState → List (String × Nat × ContactRequest) → List Outcome
  | _, [] => []
  | st, e :: rest =>
      (limitedHandle configured st e.1 e.2.1 e.2.2).2 ::
        processTrace configured (limitedHandle configured st e.1 e.2.1 e.2.2).1 rest

/-! ## Localization skeleton

The spec states that the two language variants of the email are identical
in content and structure, differing only in the labels and the `dir`
attribute.  `emailSkeleton` renders that common structure from a label
set; the refinement theorems below show `buildEmail` is exactly this
skeleton applied to the Hebrew or the English label set.
-/

/-- The localizable parts of the email: the `dir` attribute, the heading,
the five field labels and the subject head. -/
structure MailLabels where
  dir : String
  heading : String
  nameL : String
  phoneL : String
  caseL : String
  emailL : String
  msgL : String
  subjHead : String
deriving DecidableEq, Repr

/-- The Hebrew label set of the template. -/
def heLabels : MailLabels :=
  { dir := "rtl",
    heading := "\u05e4\u05e0\u05d9\u05d9\u05d4 \u05d7\u05d3\u05e9\u05d4 \u05de\u05d0\u05ea\u05e8 \u05d0\u05dc\u05d5\u05df \u05e4\u05e8\u05d3\u05d5",
    nameL := "\u05e9\u05dd",
    phoneL := "\u05d8\u05dc\u05e4\u05d5\u05df",
    caseL := "\u05e1\u05d5\u05d2 \u05d4\u05ea\u05d9\u05e7",
    emailL := "\u05d0\u05d9\u05de\u05d9\u05d9\u05dc",
    msgL := "\u05e4\u05e8\u05d8\u05d9\u05dd",
    subjHead := "\u05e4\u05e0\u05d9\u05d9\u05d4 \u05d7\u05d3\u05e9\u05d4: " }

/-- The English label set of the template. -/
def enLabels : MailLabels :=
  { dir := "ltr",
    heading := "New contact from Alon Pardo website",
    nameL := "Name",
    phoneL := "Phone",
    caseL := "Case Type",
    emailL := "Email",
    msgL := "Message",
    subjHead := "New Contact: " }

/-- Skeleton counterpart of `tplHead`. -/
def skelHead (L : MailLabels) : String :=
  "\n        <div dir=\"" ++ L.dir ++
    "\" style=\"font-family:sans-serif;max-width:600px;margin:0 auto\">\n            <h2 style=\"color:#835e21\">" ++
    L.heading ++
    "</h2>\n            <table style=\"width:100%;border-collapse:collapse\">\n                <tr><td style=\"padding:8px;font-weight:bold;border-bottom:1px solid #eee;width:30%\">" ++
    L.nameL ++
    "</td><td style=\"padding:8px;border-bottom:1px solid #eee\">"

/-- Skeleton counterpart of `tplPhone`. -/
def skelPhone (L : MailLabels) : String :=
  "</td></tr>\n                <tr><td style=\"padding:8px;font-weight:bold;border-bottom:1px solid #eee\">" ++
    L.phoneL ++
    "</td><td style=\"padding:8px;border-bottom:1px solid #eee\">"

/-- Skeleton counterpart of `tplCase`. -/
def skelCase (L : MailLabels) : String :=
  "</td></tr>\n                <tr><td style=\"padding:8px;font-weight:bold;border-bottom:1px solid #eee\">" ++
    L.caseL ++
    "</td><td style=\"padding:8px;border-bottom:1px solid #eee\">"

/-- Skeleton counterpart of `tplEmailRowHead`. -/
def skelEmailRowHead (L : MailLabels) : String :=
  "<tr><td style=\"padding:8px;font-weight:bold;border-bottom:1px solid #eee\">" ++
    L.emailL ++
    "</td><td style=\"padding:8px;border-bottom:1px solid #eee\">"

/-- Skeleton counterpart of `tplMsg`. -/
def skelMsg (L : MailLabels) : String :=
  "\n                <tr><td style=\"padding:8px;font-weight:bold;border-bottom:1px solid #eee;vertical-align:top\">" ++
    L.msgL ++
    "</td><td style=\"padding:8px;border-bottom:1px solid #eee\">"

/-- The language-independent email structure, rendered from a label set:
what "content and structure are otherwise identical" means. -/
def emailSkeleton (L : MailLabels) (safeName safePhone safeCaseType safeEmail safeMessage : String) :
    Email :=
  { subject := L.subjHead ++ safeName ++ " \u2013 " ++ safeCaseType,
    html :=
      skelHead L ++ safeName ++ skelPhone L ++ safePhone ++ skelCase L ++ safeCaseType ++
        tplAfterCase ++
        (if safeEmail != "" then skelEmailRowHead L ++ safeEmail ++ tplEmailRowTail else "") ++
        skelMsg L ++ safeMessage ++ tplTail }

/-! ## Concrete requests used to instantiate the theorems -/

/-- A fully valid submission. -/
def rValid : ContactRequest :=
  { name := some "Dana Levi", phone := some "+1 (555) 123-4567", caseType := some "Traffic",
    email := some "dana@example.com", message := some "hello\nworld", lang := none }

/-- A submission whose name is a script tag. -/
def rScript : ContactRequest :=
  { name := some "<script>", phone := some "0501234567", caseType := some "Criminal",
    email := none, message := none, lang := none }

/-- A submission missing its name, with an invalid phone. -/
def rMissingName : ContactRequest :=
  { name := none, phone := some "abc", caseType := some "x",
    email := none, message := none, lang := none }

/-- A valid Hebrew-language submission. -/
def rHebrew : ContactRequest :=
  { name := some "Dana", phone := some "050", caseType := some "c",
    email := none, message := none, lang := some "he" }

/-- A submission whose name exceeds the 200-character limit. -/
def rLongName : ContactRequest :=
  { name := some (String.mk (List.replicate 201 'a')), phone := some "050", caseType := some "x",
    email := none, message := none, lang := none }

/-! ## Substring machinery for statements about the rendered html -/

/-- `beginsWith l pat`: `pat` is an initial segment of `l`. -/
def beginsWith (l pat : List Char) : Bool :=
  match pat with
  | [] => true
  | p :: ps =>
    match l with
    | [] => false
    | h :: t => h == p && beginsWith t ps

/-- `containsSub l pat`: `pat` occurs contiguously somewhere in `l`. -/
def containsSub : List Char → List Char → Bool
  | [], pat => pat.isEmpty
  | l@(_ :: t), pat => beginsWith l pat || containsSub t pat

/-- The email rendered for `rScript` by the handler. -/
def emailScript : Email :=
  buildEmail (rScript.lang == some "he")
    (esc (jsTrim (rScript.name.getD ""))) (esc (jsTrim (rScript.phone.getD "")))
    (esc (jsTrim (rScript.caseType.getD ""))) (safeEmailOf rScript.email)
    (mkSafeMessage (rScript.message.getD ""))

/-- The email rendered for `rHebrew` by the handler. -/
def emailHebrew : Email :=
  buildEmail (rHebrew.lang == some "he")
    (esc (jsTrim (rHebrew.name.getD ""))) (esc (jsTrim (rHebrew.phone.getD "")))
    (esc (jsTrim (rHebrew.caseType.getD ""))) (safeEmailOf rHebrew.email)
    (mkSafeMessage (rHebrew.message.getD ""))

/-! ## Theorems: the escape helper -/

theorem replChar_data (c : Char) (rep s : String) :
    (replChar c rep s).data = s.data.flatMap (fun x => if x = c then rep.data else [x]) := rfl

theorem escPipe_char (c : Char) :
    (((if c = '&' then "&amp;".data else [c]).flatMap
        (fun x => if x = '<' then "&lt;".data else [x])).flatMap
        (fun x => if x = '>' then "&gt;".data else [x])).flatMap
        (fun x => if x = '"' then "&quot;".data else [x]) = escChar c := by
  by_cases h1 : c = '&'
  · subst h1; decide
  · by_cases h2 : c = '<'
    · subst h2; decide
    · by_cases h3 : c = '>'
      · subst h3; decide
      · by_cases h4 : c = '"'
        · subst h4; decide
        · simp [escChar, h1, h2, h3, h4]

/-- The sequential four-pass implementation of `esc` coincides with the
single-pass per-character escaping: inserted entities are never re-escaped
by a later pass (no double escaping), and every occurrence of `&`, `<`,
`>`, `"` in the input appears in the output exactly as its entity. -/
theorem esc_data_bind (s : String) : (esc s).data = s.data.flatMap escChar := by
  show ((((s.data.flatMap (fun x => if x = '&' then "&amp;".data else [x])).flatMap
      (fun x => if x = '<' then "&lt;".data else [x])).flatMap
      (fun x => if x = '>' then "&gt;".data else [x])).flatMap
      (fun x => if x = '"' then "&quot;".data else [x])) = s.data.flatMap escChar
  rw [List.flatMap_assoc, List.flatMap_assoc, List.flatMap_assoc]
  refine List.flatMap_congr (fun c _ => ?_)
  rw [← escPipe_char c, List.flatMap_assoc, List.flatMap_assoc]

theorem mem_escChar (c a : Char) (h : c ∈ escChar a) : c ≠ '<' ∧ c ≠ '>' ∧ c ≠ '"' := by
  unfold escChar at h
  split_ifs at h with h1 h2 h3 h4
  · simp only [List.mem_cons, List.not_mem_nil, or_false] at h
    rcases h with rfl | rfl | rfl | rfl | rfl <;> decide
  · simp only [List.mem_cons, List.not_mem_nil, or_false] at h
    rcases h with rfl | rfl | rfl | rfl <;> decide
  · simp only [List.mem_cons, List.not_mem_nil, or_false] at h
    rcases h with rfl | rfl | rfl | rfl <;> decide
  · simp only [List.mem_cons, List.not_mem_nil, or_false] at h
    rcases h with rfl | rfl | rfl | rfl | rfl | rfl <;> decide
  · simp only [List.mem_singleton] at h
    subst h
    exact ⟨h2, h3, h4⟩

theorem esc_no_special (s : String) :
    ∀ c ∈ (esc s).data, c ≠ '<' ∧ c ≠ '>' ∧ c ≠ '"' := by
  intro c hc
  rw [esc_data_bind] at hc
  rcases List.mem_flatMap.mp hc with ⟨a, -, ha⟩
  exact mem_escChar c a ha

/-! ## Theorems: string and substring helpers -/

theorem strData_append (a b : String) : (a ++ b).data = a.data ++ b.data := rfl

theorem beginsWith_append (l pat ext : List Char) (h : beginsWith l pat = true) :
    beginsWith (l ++ ext) pat = true := by
  induction pat generalizing l with
  | nil => simp [beginsWith]
  | cons p ps ih =>
    cases l with
    | nil => simp [beginsWith] at h
    | cons x t =>
      rw [List.cons_append]
      unfold beginsWith at h ⊢
      rw [Bool.and_eq_true] at h ⊢
      exact ⟨h.1, ih t h.2⟩

theorem containsSub_nil_pat (l : List Char) : containsSub l [] = true := by
  cases l with
  | nil => rfl
  | cons x t => unfold containsSub beginsWith; rfl

theorem containsSub_append_left (a b pat : List Char) (h : containsSub a pat = true) :
    containsSub (a ++ b) pat = true := by
  induction a with
  | nil =>
    unfold containsSub at h
    rw [List.isEmpty_iff] at h
    subst h
    exact containsSub_nil_pat b
  | cons x t ih =>
    rw [List.cons_append]
    unfold containsSub at h ⊢
    rw [Bool.or_eq_true] at h ⊢
    rcases h with h1 | h2
    · refine Or.inl ?_
      have := beginsWith_append (x :: t) pat b h1
      rwa [List.cons_append] at this
    · exact Or.inr (ih h2)

theorem containsSub_append_right (a b pat : List Char) (h : containsSub b pat = true) :
    containsSub (a ++ b) pat = true := by
  induction a with
  | nil => simpa using h
  | cons x t ih =>
    rw [List.cons_append]
    unfold containsSub
    rw [Bool.or_eq_true]
    exact Or.inr ih

/-! ## Theorems: validation characterizations -/

theorem mem_missingFields (r : ContactRequest) (f : String) :
    f ∈ missingFields r ↔
      (f = "name" ∧ isMissing r.name = true) ∨ (f = "phone" ∧ isMissing r.phone = true) ∨
        (f = "caseType" ∧ isMissing r.caseType = true) := by
  cases hn : isMissing r.name <;> cases hp : isMissing r.phone <;>
    cases hc : isMissing r.caseType <;>
      simp [missingFields, reqFields, hn, hp, hc]

theorem missingFields_nil (r : ContactRequest) :
    missingFields r = [] ↔
      isMissing r.name = false ∧ isMissing r.phone = false ∧ isMissing r.caseType = false := by
  cases hn : isMissing r.name <;> cases hp : isMissing r.phone <;>
    cases hc : isMissing r.caseType <;>
      simp [missingFields, reqFields, hn, hp, hc]

theorem phone_getD_ne_nil (r : ContactRequest) (h : missingFields r = []) :
    (r.phone.getD "").data ≠ [] := by
  have hp : isMissing r.phone = false := ((missingFields_nil r).mp h).2.1
  cases hph : r.phone with
  | none => rw [hph] at hp; simp [isMissing] at hp
  | some s =>
    rw [hph] at hp
    unfold isMissing at hp
    simp only [Option.getD_some, hph]
    intro hd
    have hs : s = "" := by
      cases s
      simp only [String.data] at hd
      subst hd
      rfl
    rw [hs] at hp
    simp [jsTrim] at hp

theorem phoneTest_of_all (r : ContactRequest) (h : missingFields r = [])
    (h1 : (r.phone.getD "").data.all phoneCharOk = true) :
    phoneTest (r.phone.getD "") = true := by
  have hne := phone_getD_ne_nil r h
  unfold phoneTest
  rw [h1]
  simp [List.isEmpty_iff, hne]

/-! ## Theorems: handler branches -/

theorem handleContact_missing (cfg : Bool) (r : ContactRequest) (h : missingFields r ≠ []) :
    handleContact cfg r = Outcome.respond
      { status := 400, ok := false, error := some "Missing required fields",
        fields := some (missingFields r) } := by
  unfold handleContact
  simp [h]

theorem handleContact_overLen (cfg : Bool) (r : ContactRequest) (fm : String × Nat)
    (h0 : missingFields r = []) (h1 : firstOverLimit r = some fm) :
    handleContact cfg r = Outcome.respond
      { status := 400, ok := false,
        error := some (fm.1 ++ " exceeds maximum length of " ++ toString fm.2),
        fields := none } := by
  unfold handleContact
  simp [h0, h1]

theorem handleContact_phoneFail (cfg : Bool) (r : ContactRequest)
    (h0 : missingFields r = []) (h1 : firstOverLimit r = none)
    (h2 : phoneTest (r.phone.getD "") = false) :
    handleContact cfg r = Outcome.respond
      { status := 400, ok := false, error := some "Invalid phone format",
        fields := none } := by
  unfold handleContact
  simp [h0, h1, h2]

theorem handleContact_notConfigured (r : ContactRequest)
    (h0 : missingFields r = []) (h1 : firstOverLimit r = none)
    (h2 : phoneTest (r.phone.getD "") = true) :
    handleContact false r = Outcome.respond
      { status := 503, ok := false, error := some "Email not configured",
        fields := none } := by
  unfold handleContact
  simp [h0, h1, h2]

theorem handleContact_send (r : ContactRequest)
    (h0 : missingFields r = []) (h1 : firstOverLimit r = none)
    (h2 : phoneTest (r.phone.getD "") = true) :
    handleContact true r = Outcome.sendMail (buildEmail (r.lang == some "he")
      (esc (jsTrim (r.name.getD ""))) (esc (jsTrim (r.phone.getD "")))
      (esc (jsTrim (r.caseType.getD ""))) (safeEmailOf r.email)
      (mkSafeMessage (r.message.getD ""))) := by
  unfold handleContact
  simp [h0, h1, h2]

theorem sendMail_inv (cfg : Bool) (r : ContactRequest) (e : Email)
    (h : handleContact cfg r = Outcome.sendMail e) :
    cfg = true ∧ missingFields r = [] ∧ firstOverLimit r = none ∧
      phoneTest (r.phone.getD "") = true ∧
      e = buildEmail (r.lang == some "he")
        (esc (jsTrim (r.name.getD ""))) (esc (jsTrim (r.phone.getD "")))
        (esc (jsTrim (r.caseType.getD ""))) (safeEmailOf r.email)
        (mkSafeMessage (r.message.getD "")) := by
  by_cases h0 : missingFields r = []
  · cases h1 : firstOverLimit r with
    | some fm =>
      rw [handleContact_overLen cfg r fm h0 h1] at h
      simp at h
    | none =>
      cases h2 : phoneTest (r.phone.getD "") with
      | false =>
        rw [handleContact_phoneFail cfg r h0 h1 h2] at h
        simp at h
      | true =>
        cases cfg with
        | false =>
          rw [handleContact_notConfigured r h0 h1 h2] at h
          simp at h
        | true =>
          rw [handleContact_send r h0 h1 h2] at h
          simp only [Outcome.sendMail.injEq] at h
          exact ⟨rfl, h0, rfl, rfl, h.symm⟩
  · rw [handleContact_missing cfg r h0] at h
    simp at h

/-! ## Claim theorems: validation and error handling -/

/-- C2: for every submission with any of name, phone, caseType absent or
blank, the handler responds 400 with body listing exactly the missing field
names among name, phone, caseType, and no send is attempted. -/
theorem claim_C2 (cfg : Bool) (r : ContactRequest)
    (h : isMissing r.name = true ∨ isMissing r.phone = true ∨ isMissing r.caseType = true) :
    handleContact cfg r = Outcome.respond
      { status := 400, ok := false, error := some "Missing required fields",
        fields := some (missingFields r) } ∧
    (∀ f, f ∈ missingFields r ↔
      (f = "name" ∧ isMissing r.name = true) ∨ (f = "phone" ∧ isMissing r.phone = true) ∨
        (f = "caseType" ∧ isMissing r.caseType = true)) ∧
    (∀ e, handleContact cfg r ≠ Outcome.sendMail e) := by
  have hne : missingFields r ≠ [] := by
    intro hnil
    rcases (missingFields_nil r).mp hnil with ⟨a, b, c⟩
    rcases h with h | h | h <;> simp_all
  refine ⟨handleContact_missing cfg r hne, fun f => mem_missingFields r f, ?_⟩
  intro e he
  rw [handleContact_missing cfg r hne] at he
  simp at he

theorem claim_C2_witness :
    (isMissing rMissingName.name = true ∨ isMissing rMissingName.phone = true ∨
      isMissing rMissingName.caseType = true) ∧
    handleContact true rMissingName = Outcome.respond
      { status := 400, ok := false, error := some "Missing required fields",
        fields := some (missingFields rMissingName) } :=
  ⟨by decide, (claim_C2 true rMissingName (by decide)).1⟩

/-- C6: for every submission that passes the presence check and has some
field over its length limit, the handler responds 400 naming an offending
field and its limit. -/
theorem claim_C6 (cfg : Bool) (r : ContactRequest) (hm : missingFields r = [])
    (f : String) (mx : Nat) (hmem : (f, mx) ∈ limits)
    (hover : overLimit (fieldVal r f) mx = true) :
    ∃ g my, (g, my) ∈ limits ∧ overLimit (fieldVal r g) my = true ∧
      handleContact cfg r = Outcome.respond
        { status := 400, ok := false,
          error := some (g ++ " exceeds maximum length of " ++ toString my),
          fields := none } := by
  have hsome : (limits.find? (fun p => overLimit (fieldVal r p.1) p.2)).isSome :=
    List.find?_isSome.mpr ⟨(f, mx), hmem, hover⟩
  obtain ⟨fm, hfm⟩ := Option.isSome_iff_exists.mp hsome
  have hP0 := List.find?_some hfm
  have hP : overLimit (fieldVal r fm.1) fm.2 = true := hP0
  have hMem : fm ∈ limits := List.mem_of_find?_eq_some hfm
  have hfol : firstOverLimit r = some fm := hfm
  exact ⟨fm.1, fm.2, hMem, hP, handleContact_overLen cfg r fm hm hfol⟩

set_option maxRecDepth 8192 in
theorem claim_C6_witness :
    (missingFields rLongName = [] ∧ ("name", 200) ∈ limits ∧
      overLimit (fieldVal rLongName "name") 200 = true) ∧
    (∃ g my, (g, my) ∈ limits ∧ overLimit (fieldVal rLongName g) my = true ∧
      handleContact true rLongName = Outcome.respond
        { status := 400, ok := false,
          error := some (g ++ " exceeds maximum length of " ++ toString my),
          fields := none }) :=
  ⟨by decide, claim_C6 true rLongName (by decide) "name" 200 (by decide) (by decide)⟩

/-- C7: after the presence and length checks, the phone is accepted exactly
when non-empty and made only of digits, whitespace, hyphen, plus,
parentheses, period; otherwise the handler responds 400 "Invalid phone
format".  In particular "abc-123" is rejected and "+1 (555) 123-4567"
passes. -/
theorem claim_C7 (cfg : Bool) (r : ContactRequest)
    (hm : missingFields r = []) (hl : firstOverLimit r = none) :
    (phoneTest (r.phone.getD "") = false →
      handleContact cfg r = Outcome.respond
        { status := 400, ok := false, error := some "Invalid phone format",
          fields := none }) ∧
    (∀ c, c ∈ (r.phone.getD "").data → phoneCharOk c = false →
      phoneTest (r.phone.getD "") = false) ∧
    ((r.phone.getD "").data.all phoneCharOk = true →
      phoneTest (r.phone.getD "") = true ∧
      handleContact cfg r ≠ Outcome.respond
        { status := 400, ok := false, error := some "Invalid phone format",
          fields := none }) ∧
    (phoneTest "abc-123" = false ∧ phoneTest "+1 (555) 123-4567" = true) := by
  refine ⟨handleContact_phoneFail cfg r hm hl, ?_, ?_, by decide⟩
  · intro c hc hbad
    have hall : (r.phone.getD "").data.all phoneCharOk = false := by
      rw [List.all_eq_false]
      exact ⟨c, hc, by simp [hbad]⟩
    simp [phoneTest, hall]
  · intro hall
    have ht := phoneTest_of_all r hm hall
    refine ⟨ht, ?_⟩
    cases cfg with
    | false =>
      rw [handleContact_notConfigured r hm hl ht]
      simp
    | true =>
      rw [handleContact_send r hm hl ht]
      simp

theorem claim_C7_witness :
    (missingFields rValid = [] ∧ firstOverLimit rValid = none) ∧
    (phoneTest "abc-123" = false ∧ phoneTest "+1 (555) 123-4567" = true) :=
  ⟨by decide, (claim_C7 true rValid (by decide) (by decide)).2.2.2⟩

/-- C4: a fully valid submission with the mail transport unconfigured gets
status 503 "Email not configured" and no send is ever attempted. -/
theorem claim_C4 (r : ContactRequest)
    (hm : missingFields r = []) (hl : firstOverLimit r = none)
    (hp : phoneTest (r.phone.getD "") = true) :
    handleContact false r = Outcome.respond
      { status := 503, ok := false, error := some "Email not configured",
        fields := none } ∧
    (∀ e, handleContact false r ≠ Outcome.sendMail e) := by
  refine ⟨handleContact_notConfigured r hm hl hp, ?_⟩
  intro e he
  rw [handleContact_notConfigured r hm hl hp] at he
  simp at he

theorem claim_C4_witness :
    (missingFields rValid = [] ∧ firstOverLimit rValid = none ∧
      phoneTest (rValid.phone.getD "") = true) ∧
    handleContact false rValid = Outcome.respond
      { status := 503, ok := false, error := some "Email not configured",
        fields := none } :=
  ⟨by decide, (claim_C4 rValid (by decide) (by decide) (by decide)).1⟩

/-- C5: a valid submission with the transport configured attempts a send;
send success yields exactly ok:true with status 200, send failure yields
status 500 with the fixed generic message, independent of the transport
error details. -/
theorem claim_C5 (r : ContactRequest)
    (hm : missingFields r = []) (hl : firstOverLimit r = none)
    (hp : phoneTest (r.phone.getD "") = true) :
    (∃ e, handleContact true r = Outcome.sendMail e) ∧
    respOfSend (Except.ok ()) = { status := 200, ok := true, error := none, fields := none } ∧
    (∀ errMsg : String, respOfSend (Except.error errMsg) =
      { status := 500, ok := false, error := some "Failed to send email",
        fields := none }) :=
  ⟨⟨_, handleContact_send r hm hl hp⟩, rfl, fun _ => rfl⟩

theorem claim_C5_witness :
    (missingFields rValid = [] ∧ firstOverLimit rValid = none ∧
      phoneTest (rValid.phone.getD "") = true) ∧
    (∃ e, handleContact true rValid = Outcome.sendMail e) :=
  ⟨by decide, (claim_C5 rValid (by decide) (by decide) (by decide)).1⟩

/-- C9: the validation sequence fails fast in the order presence, length,
phone format, transport availability, the earliest failing check deciding
the response; in particular a submission that is both missing a field and
has an invalid phone gets the missing-fields 400. -/
theorem claim_C9 (cfg : Bool) (r : ContactRequest) :
    (missingFields r ≠ [] → handleContact cfg r = Outcome.respond
      { status := 400, ok := false, error := some "Missing required fields",
        fields := some (missingFields r) }) ∧
    (∀ fm, missingFields r = [] → firstOverLimit r = some fm →
      handleContact cfg r = Outcome.respond
        { status := 400, ok := false,
          error := some (fm.1 ++ " exceeds maximum length of " ++ toString fm.2),
          fields := none }) ∧
    (missingFields r = [] → firstOverLimit r = none →
      phoneTest (r.phone.getD "") = false →
      handleContact cfg r = Outcome.respond
        { status := 400, ok := false, error := some "Invalid phone format",
          fields := none }) ∧
    (missingFields r = [] → firstOverLimit r = none →
      phoneTest (r.phone.getD "") = true →
      handleContact false r = Outcome.respond
        { status := 503, ok := false, error := some "Email not configured",
          fields := none } ∧
      ∃ e, handleContact true r = Outcome.sendMail e) ∧
    handleContact cfg rMissingName = Outcome.respond
      { status := 400, ok := false, error := some "Missing required fields",
        fields := some ["name"] } := by
  refine ⟨handleContact_missing cfg r,
    fun fm h0 h1 => handleContact_overLen cfg r fm h0 h1,
    fun h0 h1 h2 => handleContact_phoneFail cfg r h0 h1 h2,
    fun h0 h1 h2 => ⟨handleContact_notConfigured r h0 h1 h2,
      ⟨_, handleContact_send r h0 h1 h2⟩⟩, ?_⟩
  have hne : missingFields rMissingName ≠ [] := by decide
  have hval : missingFields rMissingName = ["name"] := by decide
  rw [handleContact_missing cfg rMissingName hne, hval]

theorem claim_C9_witness :
    (missingFields rValid = [] ∧ firstOverLimit rValid = none ∧
      phoneTest (rValid.phone.getD "") = true) ∧
    handleContact false rValid = Outcome.respond
      { status := 503, ok := false, error := some "Email not configured",
        fields := none } :=
  ⟨by decide, ((claim_C9 false rValid).2.2.2.1 (by decide) (by decide) (by decide)).1⟩

/-! ## Theorems: locating template parts in the rendered html -/

theorem buildEmail_html_eq (isHe : Bool) (sn sp sc se sm : String) :
    (buildEmail isHe sn sp sc se sm).html =
      tplHead isHe ++ sn ++ tplPhone isHe ++ sp ++ tplCase isHe ++ sc ++ tplAfterCase ++
        (if se != "" then tplEmailRowHead isHe ++ se ++ tplEmailRowTail else "") ++
        tplMsg isHe ++ sm ++ tplTail := rfl

theorem buildEmail_html_parts (isHe : Bool) (sn sp sc se sm : String) (pat : List Char)
    (h : containsSub (tplHead isHe).data pat = true ∨
      containsSub (tplPhone isHe).data pat = true ∨
      containsSub (tplCase isHe).data pat = true ∨
      containsSub (tplMsg isHe).data pat = true) :
    containsSub (buildEmail isHe sn sp sc se sm).html.data pat = true := by
  rw [buildEmail_html_eq]
  simp only [strData_append]
  rcases h with h | h | h | h
  · exact containsSub_append_left _ _ _ (containsSub_append_left _ _ _
      (containsSub_append_left _ _ _ (containsSub_append_left _ _ _
        (containsSub_append_left _ _ _ (containsSub_append_left _ _ _
          (containsSub_append_left _ _ _ (containsSub_append_left _ _ _
            (containsSub_append_left _ _ _ (containsSub_append_left _ _ _ h)))))))))
  · exact containsSub_append_left _ _ _ (containsSub_append_left _ _ _
      (containsSub_append_left _ _ _ (containsSub_append_left _ _ _
        (containsSub_append_left _ _ _ (containsSub_append_left _ _ _
          (containsSub_append_left _ _ _ (containsSub_append_left _ _ _
            (containsSub_append_right _ _ _ h))))))))
  · exact containsSub_append_left _ _ _ (containsSub_append_left _ _ _
      (containsSub_append_left _ _ _ (containsSub_append_left _ _ _
        (containsSub_append_left _ _ _ (containsSub_append_left _ _ _
          (containsSub_append_right _ _ _ h))))))
  · exact containsSub_append_left _ _ _ (containsSub_append_left _ _ _
      (containsSub_append_right _ _ _ h))

theorem subject_he_eq (sn sp sc se sm : String) :
    (buildEmail true sn sp sc se sm).subject =
      heLabels.subjHead ++ sn ++ " \u2013 " ++ sc := rfl

theorem subject_en_eq (sn sp sc se sm : String) :
    (buildEmail false sn sp sc se sm).subject =
      enLabels.subjHead ++ sn ++ " \u2013 " ++ sc := rfl

theorem subject_he (sn sp sc se sm : String) :
    beginsWith (buildEmail true sn sp sc se sm).subject.data heLabels.subjHead.data = true := by
  rw [subject_he_eq]
  simp only [strData_append]
  exact beginsWith_append _ _ _ (beginsWith_append _ _ _
    (beginsWith_append _ _ _ (by decide)))

theorem subject_en (sn sp sc se sm : String) :
    beginsWith (buildEmail false sn sp sc se sm).subject.data enLabels.subjHead.data = true := by
  rw [subject_en_eq]
  simp only [strData_append]
  exact beginsWith_append _ _ _ (beginsWith_append _ _ _
    (beginsWith_append _ _ _ (by decide)))

/-! ## Theorems: rate limiter -/

theorem recentCount_le (st : LimiterState) (c : String) (t : Nat) :
    recentCount st c t ≤ st.hits.length :=
  List.length_filter_le _ _

/-! ## Claim theorems: escaping, localization, rate limiting -/

/-- C10: for every input string, the output of `esc` contains no occurrence
of `<`, `>` or `"`, and equals the one-pass per-character entity
substitution — so a single application cannot double-escape, and every
special character of the input appears in the output only as its entity. -/
theorem claim_C10 (s : String) :
    (∀ c ∈ (esc s).data, c ≠ '<' ∧ c ≠ '>' ∧ c ≠ '"') ∧
    (esc s).data = s.data.flatMap escChar :=
  ⟨esc_no_special s, esc_data_bind s⟩

theorem claim_C10_witness :
    ('l' ≠ '<' ∧ 'l' ≠ '>' ∧ 'l' ≠ '"') ∧ (esc "<").data = "<".data.flatMap escChar :=
  ⟨(claim_C10 "<").1 'l' (by decide), (claim_C10 "<").2⟩

set_option maxRecDepth 1000000 in
set_option maxHeartbeats 2000000 in
/-- C1: every user-supplied string interpolated into the html body goes
through `esc`, which replaces `&`, `<`, `>`, `"` by their entities (the
one-pass characterization), and in the message field newlines become
`<br>` only after escaping; in particular, for name `<script>` the rendered
body contains `&lt;script&gt;` and never a raw `<script>` tag. -/
theorem claim_C1 :
    (∀ s : String, (esc s).data = s.data.flatMap escChar) ∧
    mkSafeMessage "x<y\nz" = "x&lt;y<br>z" ∧
    (∀ (cfg : Bool) (r : ContactRequest) (e : Email),
      handleContact cfg r = Outcome.sendMail e →
      e = buildEmail (r.lang == some "he")
        (esc (jsTrim (r.name.getD ""))) (esc (jsTrim (r.phone.getD "")))
        (esc (jsTrim (r.caseType.getD ""))) (safeEmailOf r.email)
        (mkSafeMessage (r.message.getD ""))) ∧
    isSend (handleContact true rScript) = true ∧
    containsSub (outcomeHtml (handleContact true rScript)).data "&lt;script&gt;".data = true ∧
    containsSub (outcomeHtml (handleContact true rScript)).data "<script>".data = false := by
  refine ⟨esc_data_bind, by decide, ?_, by decide, by decide, by decide⟩
  intro cfg r e h
  exact (sendMail_inv cfg r e h).2.2.2.2

set_option maxRecDepth 1000000 in
set_option maxHeartbeats 2000000 in
theorem claim_C1_witness :
    handleContact true rScript = Outcome.sendMail emailScript ∧
    emailScript = buildEmail (rScript.lang == some "he")
      (esc (jsTrim (rScript.name.getD ""))) (esc (jsTrim (rScript.phone.getD "")))
      (esc (jsTrim (rScript.caseType.getD ""))) (safeEmailOf rScript.email)
      (mkSafeMessage (rScript.message.getD "")) :=
  ⟨by decide, claim_C1.2.2.1 true rScript emailScript (by decide)⟩

set_option maxRecDepth 100000 in
set_option maxHeartbeats 2000000 in
/-- C8: the two language variants of the email share one structure
(`emailSkeleton`), differing only in the label set; every email the handler
renders for `lang = "he"` carries `dir="rtl"`, the Hebrew heading, field
labels and subject head, and for any other `lang` value carries
`dir="ltr"` and the English ones. -/
theorem claim_C8 :
    (∀ sn sp sc se sm, buildEmail true sn sp sc se sm = emailSkeleton heLabels sn sp sc se sm) ∧
    (∀ sn sp sc se sm, buildEmail false sn sp sc se sm = emailSkeleton enLabels sn sp sc se sm) ∧
    (∀ (cfg : Bool) (r : ContactRequest) (e : Email),
      handleContact cfg r = Outcome.sendMail e → r.lang = some "he" →
      containsSub e.html.data "dir=\"rtl\"".data = true ∧
      containsSub e.html.data heLabels.heading.data = true ∧
      containsSub e.html.data heLabels.nameL.data = true ∧
      containsSub e.html.data heLabels.phoneL.data = true ∧
      containsSub e.html.data heLabels.caseL.data = true ∧
      containsSub e.html.data heLabels.msgL.data = true ∧
      beginsWith e.subject.data heLabels.subjHead.data = true) ∧
    (∀ (cfg : Bool) (r : ContactRequest) (e : Email),
      handleContact cfg r = Outcome.sendMail e → r.lang ≠ some "he" →
      containsSub e.html.data "dir=\"ltr\"".data = true ∧
      containsSub e.html.data enLabels.heading.data = true ∧
      containsSub e.html.data enLabels.nameL.data = true ∧
      containsSub e.html.data enLabels.phoneL.data = true ∧
      containsSub e.html.data enLabels.caseL.data = true ∧
      containsSub e.html.data enLabels.msgL.data = true ∧
      beginsWith e.subject.data enLabels.subjHead.data = true) := by
  refine ⟨fun sn sp sc se sm => rfl, fun sn sp sc se sm => rfl, ?_, ?_⟩
  · intro cfg r e h hlang
    obtain ⟨-, -, -, -, he⟩ := sendMail_inv cfg r e h
    have hb : (r.lang == some "he") = true := by rw [hlang]; rfl
    rw [hb] at he
    subst he
    exact ⟨buildEmail_html_parts true _ _ _ _ _ _ (Or.inl (by decide)),
      buildEmail_html_parts true _ _ _ _ _ _ (Or.inl (by decide)),
      buildEmail_html_parts true _ _ _ _ _ _ (Or.inl (by decide)),
      buildEmail_html_parts true _ _ _ _ _ _ (Or.inr (Or.inl (by decide))),
      buildEmail_html_parts true _ _ _ _ _ _ (Or.inr (Or.inr (Or.inl (by decide)))),
      buildEmail_html_parts true _ _ _ _ _ _ (Or.inr (Or.inr (Or.inr (by decide)))),
      subject_he _ _ _ _ _⟩
  · intro cfg r e h hlang
    obtain ⟨-, -, -, -, he⟩ := sendMail_inv cfg r e h
    have hb : (r.lang == some "he") = false := beq_eq_false_iff_ne.mpr hlang
    rw [hb] at he
    subst he
    exact ⟨buildEmail_html_parts false _ _ _ _ _ _ (Or.inl (by decide)),
      buildEmail_html_parts false _ _ _ _ _ _ (Or.inl (by decide)),
      buildEmail_html_parts false _ _ _ _ _ _ (Or.inl (by decide)),
      buildEmail_html_parts false _ _ _ _ _ _ (Or.inr (Or.inl (by decide))),
      buildEmail_html_parts false _ _ _ _ _ _ (Or.inr (Or.inr (Or.inl (by decide)))),
      buildEmail_html_parts false _ _ _ _ _ _ (Or.inr (Or.inr (Or.inr (by decide)))),
      subject_en _ _ _ _ _⟩

set_option maxRecDepth 1000000 in
set_option maxHeartbeats 2000000 in
theorem claim_C8_witness :
    (handleContact true rHebrew = Outcome.sendMail emailHebrew ∧ rHebrew.lang = some "he") ∧
    containsSub emailHebrew.html.data "dir=\"rtl\"".data = true :=
  ⟨⟨by decide, rfl⟩, (claim_C8.2.2.1 true rHebrew emailHebrew (by decide) rfl).1⟩

/-- C3: the contact endpoint is throttled per client address to 5 accepted
attempts per 15-minute sliding window; a request over the limit receives
the 429 body without the handler (and its validation) ever running, and a
6th request from the same client within the window of the first five is
such a request, whatever its content. -/
theorem claim_C3 (cfg : Bool) (client : String) (t0 t1 t2 t3 t4 t5 : Nat)
    (r0 r1 r2 r3 r4 r5 : ContactRequest)
    (h0 : t0 ≤ t5 ∧ t5 < t0 + windowMs) (h1 : t1 ≤ t5 ∧ t5 < t1 + windowMs)
    (h2 : t2 ≤ t5 ∧ t5 < t2 + windowMs) (h3 : t3 ≤ t5 ∧ t5 < t3 + windowMs)
    (h4 : t4 ≤ t5 ∧ t5 < t4 + windowMs) :
    processTrace cfg { hits := [] }
      [(client, t0, r0), (client, t1, r1), (client, t2, r2),
        (client, t3, r3), (client, t4, r4), (client, t5, r5)] =
      [handleContact cfg r0, handleContact cfg r1, handleContact cfg r2,
        handleContact cfg r3, handleContact cfg r4, Outcome.respond rate429] ∧
    (∀ st now r, maxHits ≤ recentCount st client now →
      limitedHandle cfg st client now r = (st, Outcome.respond rate429)) ∧
    (∀ st now r, recentCount st client now < maxHits →
      limitedHandle cfg st client now r =
        ({ hits := (client, now) :: st.hits }, handleContact cfg r)) := by
  have accept : ∀ st : LimiterState, st.hits.length ≤ 4 → ∀ t r,
      limitedHandle cfg st client t r =
        ({ hits := (client, t) :: st.hits }, handleContact cfg r) := by
    intro st hlen t r
    unfold limitedHandle
    rw [if_neg]
    intro hge
    have hle := recentCount_le st client t
    have hmax : maxHits = 5 := rfl
    omega
  have e0 := accept { hits := [] } (by simp) t0 r0
  have e1 := accept { hits := [(client, t0)] } (by simp) t1 r1
  have e2 := accept { hits := [(client, t1), (client, t0)] } (by simp) t2 r2
  have e3 := accept { hits := [(client, t2), (client, t1), (client, t0)] } (by simp) t3 r3
  have e4 := accept { hits := [(client, t3), (client, t2), (client, t1), (client, t0)] }
    (by simp) t4 r4
  have hcnt : recentCount
      { hits := [(client, t4), (client, t3), (client, t2), (client, t1), (client, t0)] }
      client t5 = 5 := by
    have d0a := decide_eq_true h0.1
    have d0b := decide_eq_true h0.2
    have d1a := decide_eq_true h1.1
    have d1b := decide_eq_true h1.2
    have d2a := decide_eq_true h2.1
    have d2b := decide_eq_true h2.2
    have d3a := decide_eq_true h3.1
    have d3b := decide_eq_true h3.2
    have d4a := decide_eq_true h4.1
    have d4b := decide_eq_true h4.2
    simp [recentCount, d0a, d0b, d1a, d1b, d2a, d2b, d3a, d3b, d4a, d4b]
  have e5 : limitedHandle cfg
      { hits := [(client, t4), (client, t3), (client, t2), (client, t1), (client, t0)] }
      client t5 r5 =
      ({ hits := [(client, t4), (client, t3), (client, t2), (client, t1), (client, t0)] },
        Outcome.respond rate429) := by
    have hge : maxHits ≤ recentCount
        { hits := [(client, t4), (client, t3), (client, t2), (client, t1), (client, t0)] }
        client t5 := by
      rw [hcnt]
      decide
    unfold limitedHandle
    rw [if_pos hge]
  refine ⟨?_, ?_, ?_⟩
  · simp only [processTrace]
    rw [e0]
    dsimp only
    rw [e1]
    dsimp only
    rw [e2]
    dsimp only
    rw [e3]
    dsimp only
    rw [e4]
    dsimp only
    rw [e5]
  · intro st now r hge
    unfold limitedHandle
    rw [if_pos hge]
  · intro st now r hlt
    unfold limitedHandle
    rw [if_neg (Nat.not_le.mpr hlt)]

theorem claim_C3_witness :
    ((0 ≤ 5 ∧ 5 < 0 + windowMs) ∧ (1 ≤ 5 ∧ 5 < 1 + windowMs) ∧
      (2 ≤ 5 ∧ 5 < 2 + windowMs) ∧ (3 ≤ 5 ∧ 5 < 3 + windowMs) ∧
      (4 ≤ 5 ∧ 5 < 4 + windowMs)) ∧
    processTrace false { hits := [] }
      [("1.2.3.4", 0, rValid), ("1.2.3.4", 1, rValid), ("1.2.3.4", 2, rValid),
        ("1.2.3.4", 3, rValid), ("1.2.3.4", 4, rValid), ("1.2.3.4", 5, rValid)] =
      [handleContact false rValid, handleContact false rValid, handleContact false rValid,
        handleContact false rValid, handleContact false rValid, Outcome.respond rate429] :=
  ⟨by decide,
    (claim_C3 false "1.2.3.4" 0 1 2 3 4 5 rValid rValid rValid rValid rValid rValid
      (by decide) (by decide) (by decide) (by decide) (by decide)).1⟩

end AlonPardo
